import Mathlib

/-!
Verification of the `diagnostics_tk` runner library.

This file gives a shallow embedding of the relevant parts of the
`diagnostics_tk` Python package and proves properties of the embedded
definitions:

* `exec_cli` embeds `diagnostics_tk.tools.exec_cli`;
* `callback` embeds `DiagnosticsRunner.__callback`;
* `exitRunner` embeds `DiagnosticsRunner.__exit__`;
* `render_doc_string` embeds `DiagnosticsRunner.__render_doc_string`;
* `extract_test_methods` embeds `DiagnosticsRunner.__extract_test_methods`;
* `register` embeds `DiagnosticsRunner.register`.

Python exceptions are modelled with `Except String`; Python `None` and
missing values with `Option`.
-/

set_option autoImplicit false

/-- Decidable equality on `Except`, so concrete runs of the embedded
fallible functions can be checked by `decide`. -/
instance exceptDecEq {ε α : Type} [DecidableEq ε] [DecidableEq α] :
    DecidableEq (Except ε α)
  | Except.error e, Except.error f =>
      if h : e = f then Decidable.isTrue (by rw [h])
      else Decidable.isFalse (by intro hc; cases hc; exact h rfl)
  | Except.error _, Except.ok _ => Decidable.isFalse (by intro hc; cases hc)
  | Except.ok _, Except.error _ => Decidable.isFalse (by intro hc; cases hc)
  | Except.ok a, Except.ok b =>
      if h : a = b then Decidable.isTrue (by rw [h])
      else Decidable.isFalse (by intro hc; cases hc; exact h rfl)

/-- Outcome of `subprocess.run` as observed by `exec_cli`: either the
timeout expired (`subprocess.TimeoutExpired`), or the process completed
with a return code and captured stdout/stderr (decoded to text). -/
inductive SubprocessOutcome where
  | timedOut
  | completed (returncode : Int) (stdout : String) (stderr : String)
deriving DecidableEq

/-- Python `f"...{x}..."` rendering of an `Optional[str]` value: `None`
renders as the text `None`, a string renders as itself. -/
def pyStrOpt : Option String → String
  | none => "None"
  | some s => s

/-- The stderr-pattern check of `exec_cli` (source lines 60-64): if a
`stderr_pattern` is given and does not match the captured stderr, return
`False` with a message that embeds `stdout_pattern` (exactly as the
source's f-string on its line 62 does); otherwise `(True, "Good")`. -/
def exec_cli_checkStderr (research : String → String → Bool) (err : String)
    (stdout_pattern stderr_pattern : Option String) : Bool × String :=
  match stderr_pattern with
  | some p =>
      if research p err then
        (true, "Good")
      else
        (false, "STDERR did not match regex \x27" ++ pyStrOpt stdout_pattern ++ "\x27.")
  | none =>
      (true, "Good")

/-- The stdout-pattern check of `exec_cli` (source lines 56-58), falling
through to the stderr check when it passes. -/
def exec_cli_checkStdout (research : String → String → Bool) (out err : String)
    (stdout_pattern stderr_pattern : Option String) : Bool × String :=
  match stdout_pattern with
  | some p =>
      if research p out then
        exec_cli_checkStderr research err stdout_pattern stderr_pattern
      else
        (false, "STDOUT did not match regex \x27" ++ p ++ "\x27.")
  | none =>
      exec_cli_checkStderr research err stdout_pattern stderr_pattern

/-- Embeds `diagnostics_tk.tools.exec_cli`. The call to `subprocess.run`
is abstracted by its observed `SubprocessOutcome`, and the external
`re.search` regex engine is abstracted by the function `research`
(`research pattern text = true` iff the regex `pattern` matches somewhere
in `text`). The sequential early-return structure of the Python function
is mirrored: timeout check, then exit-code check, then stdout pattern,
then stderr pattern, else `(True, "Good")`. -/
def exec_cli (research : String → String → Bool) (outcome : SubprocessOutcome)
    (exit_code : Option Int) (stdout_pattern : Option String)
    (stderr_pattern : Option String) (timeout : Nat) : Bool × String :=
  match outcome with
  | SubprocessOutcome.timedOut =>
      (false, "Test timed out after \x27" ++ toString timeout ++ "\x27 seconds.")
  | SubprocessOutcome.completed returncode out err =>
      match exit_code with
      | some ec =>
          if returncode ≠ ec then
            (false, "Exit code is \x27" ++ toString returncode ++
              "\x27 instead of the expected \x27" ++ toString ec ++ "\x27.")
          else
            exec_cli_checkStdout research out err stdout_pattern stderr_pattern
      | none =>
          exec_cli_checkStdout research out err stdout_pattern stderr_pattern

/-- Outcome of calling a diagnostic method, as observed through
`future.result()` inside `DiagnosticsRunner.__callback`: the call
returned normally, raised an `AssertionError` whose `str` is `msg`, or
raised an exception of any other type. -/
inductive CallOutcome where
  | ok
  | assertionError (msg : String)
  | otherError (msg : String)
deriving DecidableEq

/-- An entry of the `methods` list of `DiagnosticsRunner`, i.e. the dict
`{"name": ..., "method": ..., "doc": ...}` appended by `register`. The
callable `method` is modelled by the number of arguments it requires
(`arity`); a diagnostic method is invoked with zero arguments. -/
structure MethodRec where
  name : String
  arity : Nat
  doc : Option String
deriving DecidableEq

/-- One call `output.submit(name, doc, result, reason)` made by
`__callback`, tagged with the position `sink` of the receiving output in
the `self.outputs` registration list. -/
structure SubmitEvent where
  sink : Nat
  name : String
  doc : Option String
  result : Bool
  reason : String
deriving DecidableEq

/-- The `try`/`except AssertionError`/`else` block of
`DiagnosticsRunner.__callback` (source lines 153-163): a normal return
yields `result = True, reason = "n/a"`; an `AssertionError` yields
`result = False, reason = str(err)`; any other exception propagates
uncaught out of the block. -/
def callbackClassify : CallOutcome → Except String (Bool × String)
  | CallOutcome.ok => Except.ok (true, "n/a")
  | CallOutcome.assertionError msg => Except.ok (false, msg)
  | CallOutcome.otherError msg => Except.error msg

/-- Embeds `DiagnosticsRunner.__callback` (source lines 143-171): classify
the finished future's outcome, then loop over `self.outputs` in
registration order calling `submit` on each. `sinkIds` lists the
registered outputs by position; the returned event list records the
`submit` calls in the order they are made. If the classification block
raises (a non-`AssertionError` exception), the exception propagates and
no `submit` call happens. -/
def callback (outcome : CallOutcome) (m : MethodRec) (sinkIds : List Nat) :
    Except String (List SubmitEvent) :=
  (callbackClassify outcome).map (fun rr =>
    sinkIds.map (fun i =>
      { sink := i, name := m.name, doc := m.doc, result := rr.1, reason := rr.2 }))

/-- Embeds `DiagnosticsRunner.__exit__` (source lines 61-64). The body is
`self.run()` followed by a `for` loop flushing every output; there is no
`try`/`finally`. The effect of `self.run()` is abstracted by `runResult`
(`Except.error e` when `run()` raises). Each registered sink is modelled
by its flush count; the first component of the result records whether
`__exit__` completed or propagated an exception, the second gives the
final flush counts. On the normal path every sink is flushed exactly
once; when `run()` raises, the exception propagates before the `for`
loop is reached, so no sink is flushed. -/
def exitRunner (runResult : Except String Unit) (flushCounts : List Nat) :
    Except String Unit × List Nat :=
  match runResult with
  | Except.error e => (Except.error e, flushCounts)
  | Except.ok _ => (Except.ok (), flushCounts.map (fun n => n + 1))

/-- The whitespace class of Python's `re` module restricted to ASCII:
the characters matched by `\s` in the pattern `r"\s+"` on ASCII text. -/
def isPySpace (c : Char) : Bool :=
  c = ' ' || c = '\t' || c = '\n' || c = '\r' || c = '\x0b' || c = '\x0c'

/-- Embeds `re.sub(r"\s+", " ", doc)` on ASCII text (source line 115):
each maximal run of whitespace characters is replaced by a single space.
The flag `prevSpace` records whether the previous character belonged to a
whitespace run that has already been replaced. -/
def collapseWSAux : List Char → Bool → List Char
  | [], _ => []
  | c :: rest, prevSpace =>
      if isPySpace c then
        if prevSpace then collapseWSAux rest true
        else ' ' :: collapseWSAux rest true
      else c :: collapseWSAux rest false

/-- String form of `collapseWSAux`: `re.sub(r"\s+", " ", s)`. -/
def collapseWS (s : String) : String :=
  String.mk (collapseWSAux s.data false)

/-- Decides whether a character list contains two adjacent whitespace
characters; `true` means no such pair exists (whitespace is collapsed). -/
def noAdjWS : List Char → Bool
  | c1 :: c2 :: rest => !(isPySpace c1 && isPySpace c2) && noAdjWS (c2 :: rest)
  | _ => true

/-- The opening brace character, `\x7b`. -/
def openBrace : Char := '\x7b'

/-- The closing brace character, `\x7d`. -/
def closeBrace : Char := '\x7d'

/-- First-match lookup in an association list of string keys; models
reading a key out of a Python dict (whose keys are unique). -/
def lookupStr : List (String × String) → String → Option String
  | [], _ => none
  | (k, v) :: rest, key => if k = key then some v else lookupStr rest key

/-- Models Python `template.format(**kwargs)` restricted to simple named
fields: a brace-delimited field is replaced by the value of that key in
`kwargs`; doubled braces are escapes for literal braces; an undefined key
(`KeyError`), an unterminated field, or a stray closing brace raise,
modelled as `Except.error`. The second argument is `none` in literal-text
mode and `some fbuf` while reading a field name (accumulated reversed in
`fbuf`). -/
def pyFormatAux (kwargs : List (String × String)) :
    List Char → Option (List Char) → Except String (List Char)
  | [], none => Except.ok []
  | [], some _ =>
      Except.error "Single opening brace encountered in format string"
  | c :: rest, none =>
      if c = openBrace then
        match rest with
        | [] => Except.error "Single opening brace encountered in format string"
        | c2 :: rest2 =>
            if c2 = openBrace then
              (pyFormatAux kwargs rest2 none).map (fun s => openBrace :: s)
            else if c2 = closeBrace then
              match lookupStr kwargs "" with
              | none => Except.error "KeyError: "
              | some v => (pyFormatAux kwargs rest2 none).map (fun s => v.data ++ s)
            else
              pyFormatAux kwargs rest2 (some [c2])
      else if c = closeBrace then
        match rest with
        | [] => Except.error "Single closing brace encountered in format string"
        | c2 :: rest2 =>
            if c2 = closeBrace then
              (pyFormatAux kwargs rest2 none).map (fun s => closeBrace :: s)
            else
              Except.error "Single closing brace encountered in format string"
      else
        (pyFormatAux kwargs rest none).map (fun s => c :: s)
  | c :: rest, some fbuf =>
      if c = closeBrace then
        match lookupStr kwargs (String.mk fbuf.reverse) with
        | none => Except.error ("KeyError: " ++ String.mk fbuf.reverse)
        | some v => (pyFormatAux kwargs rest none).map (fun s => v.data ++ s)
      else
        pyFormatAux kwargs rest (some (c :: fbuf))

/-- String form of `pyFormatAux`: `template.format(**kwargs)`. -/
def pyFormat (template : String) (kwargs : List (String × String)) :
    Except String String :=
  (pyFormatAux kwargs template.data none).map String.mk

/-- Embeds `DiagnosticsRunner.__render_doc_string` (source lines 100-121).
`doc` is `func.__doc__` (`none` when the function has no docstring) and
`kwargs` the substitution mapping. A missing docstring is logged and
yields `None`; a `format` failure is caught, logged and yields `None`;
otherwise the formatted docstring is returned with whitespace runs
collapsed. The function is total: it never raises. -/
def render_doc_string (doc : Option String) (kwargs : List (String × String)) :
    Option String :=
  match doc with
  | none => none
  | some d =>
      match pyFormat d kwargs with
      | Except.error _ => none
      | Except.ok s => some (collapseWS s)

/-- A member of a Python object as seen by `dir()` + `getattr`: either a
non-callable attribute, or a callable. A callable is modelled by the
number of arguments it requires (`arity`) and its docstring
(`func.__doc__`, `none` when absent). -/
inductive Member where
  | attr
  | callableMember (arity : Nat) (doc : Option String)
deriving DecidableEq

/-- Python `callable(...)` on a member: true exactly for callables,
whatever their arity. -/
def isCallable : Member → Bool
  | Member.attr => false
  | Member.callableMember _ _ => true

/-- The arity of a callable member (0 for a non-callable, unused). -/
def memberArity : Member → Nat
  | Member.attr => 0
  | Member.callableMember a _ => a

/-- The docstring of a member (`none` for a non-callable, unused). -/
def memberDoc : Member → Option String
  | Member.attr => none
  | Member.callableMember _ d => d

/-- Python `name.startswith("test_")`. -/
def startsWithTest (name : String) : Bool :=
  List.isPrefixOf "test_".data name.data

/-- A Python object as the runner sees it: whether it is an instance of
the `Output` base class, its type name (`type(obj).__name__`), its
members in `dir(obj)` enumeration order, and its instance dict
`obj.__dict__` with values rendered as strings. -/
structure PyObject where
  isOutput : Bool
  className : String
  members : List (String × Member)
  fields : List (String × String)
deriving DecidableEq

/-- Python dict assignment `d[key] = v`: an existing key keeps its
position and gets the new value, a new key is appended. Models
`obj._name = name` updating `obj.__dict__`. -/
def setAttr (fields : List (String × String)) (key v : String) :
    List (String × String) :=
  if (fields.map Prod.fst).contains key then
    fields.map (fun kv => if kv.1 = key then (kv.1, v) else kv)
  else
    fields ++ [(key, v)]

/-- The effect of `obj._name = name` (source line 181). -/
def setName (obj : PyObject) (name : String) : PyObject :=
  { obj with fields := setAttr obj.fields "_name" name }

/-- Embeds `DiagnosticsRunner.__is_diag_instance` (source lines 83-98):
true iff some member's name starts with `test_` and that member is
callable. -/
def is_diag_instance (obj : PyObject) : Bool :=
  obj.members.any (fun nm => startsWithTest nm.1 && isCallable nm.2)

/-- The qualified name `f"{self.name}::{class_name}({obj._name})::{name}"`
built on source line 141. -/
def qualify (runnerName className instName methodName : String) : String :=
  runnerName ++ "::" ++ className ++ "(" ++ instName ++ ")::" ++ methodName

/-- The loop body of `__extract_test_methods` over the member list:
for each member whose name starts with `test_` and which is callable,
yield the qualified name, the callable and the rendered docstring. -/
def extract_test_methods_aux (runnerName className instName : String)
    (fields : List (String × String)) :
    List (String × Member) → List MethodRec
  | [] => []
  | (name, m) :: rest =>
      if startsWithTest name && isCallable m then
        { name := qualify runnerName className instName name
          arity := memberArity m
          doc := render_doc_string (memberDoc m) fields }
          :: extract_test_methods_aux runnerName className instName fields rest
      else
        extract_test_methods_aux runnerName className instName fields rest

/-- Embeds `DiagnosticsRunner.__extract_test_methods` (source lines
123-141): enumerate the object's members, keep those whose name starts
with `test_` and which are callable, and for each produce the qualified
name `<runnerName>::<className>(<obj._name>)::<memberName>` together
with the docstring rendered against `dict(obj.__dict__)`. `obj._name`
is read from the instance dict (register sets it before discovery). -/
def extract_test_methods (runnerName : String) (obj : PyObject) :
    List MethodRec :=
  extract_test_methods_aux runnerName obj.className
    ((lookupStr obj.fields "_name").getD "") obj.fields obj.members

/-- The registry state of a `DiagnosticsRunner`: the `methods` list and
the `outputs` list, both built by `register`. -/
structure RegistryState where
  methods : List MethodRec
  outputs : List PyObject
deriving DecidableEq

/-- Embeds `DiagnosticsRunner.register` (source lines 173-188). First
`obj._name = name`; then, if `obj` is an `Output` instance, append it to
`outputs`; else, if it has at least one `test_` callable member, append
all extracted test methods to `methods`; else leave the state unchanged. -/
def register (runnerName : String) (st : RegistryState) (name : String)
    (obj : PyObject) : RegistryState :=
  let obj2 := setName obj name
  if obj2.isOutput then
    { st with outputs := st.outputs ++ [obj2] }
  else if is_diag_instance obj2 then
    { st with methods := st.methods ++ extract_test_methods runnerName obj2 }
  else
    st

/-- Prepending a character preserves `noAdjWS` when the tail has no
adjacent whitespace and the new pair at the front is not two whitespace
characters. -/
theorem noAdjWS_cons (a : Char) (t : List Char) (ht : noAdjWS t = true)
    (hh : ∀ b, t.head? = some b → (isPySpace a && isPySpace b) = false) :
    noAdjWS (a :: t) = true := by
  cases t with
  | nil => rfl
  | cons b t2 =>
      have hb := hh b rfl
      simp only [noAdjWS, hb, Bool.not_false, Bool.true_and]
      exact ht

/-- After a whitespace run has just been replaced (`prevSpace = true`),
the collapsed output never starts with a whitespace character. -/
theorem collapseWSAux_true_head (l : List Char) (b : Char)
    (hb : (collapseWSAux l true).head? = some b) : isPySpace b = false := by
  induction l with
  | nil => simp [collapseWSAux] at hb
  | cons c rest ih =>
      by_cases hc : isPySpace c = true
      · rw [collapseWSAux, if_pos hc, if_pos rfl] at hb
        exact ih hb
      · rw [collapseWSAux, if_neg hc] at hb
        simp only [List.head?_cons, Option.some.injEq] at hb
        rw [← hb]
        simpa using hc

/-- The output of whitespace collapsing never contains two adjacent
whitespace characters, whatever the incoming flag. -/
theorem noAdjWS_collapseWSAux (l : List Char) :
    ∀ prev, noAdjWS (collapseWSAux l prev) = true := by
  induction l with
  | nil => intro prev; rfl
  | cons c rest ih =>
      intro prev
      by_cases hc : isPySpace c = true
      · cases prev with
        | true =>
            rw [collapseWSAux, if_pos hc, if_pos rfl]
            exact ih true
        | false =>
            rw [collapseWSAux, if_pos hc, if_neg (by simp)]
            refine noAdjWS_cons ' ' _ (ih true) ?_
            intro b hb
            rw [collapseWSAux_true_head rest b hb]
            simp
      · rw [collapseWSAux, if_neg hc]
        refine noAdjWS_cons c _ (ih false) ?_
        intro b _
        simp only [Bool.and_eq_false_iff]
        left
        simpa using hc

/-- The collapsed form of any string has no two adjacent whitespace
characters. -/
theorem noAdjWS_collapseWS (s : String) : noAdjWS (collapseWS s).data = true :=
  noAdjWS_collapseWSAux s.data false

/-- C1. The claim states that on scope exit, even when `run()` itself
throws, `flush` is still attempted for all sinks. This is false for the
code: `__exit__` has no `try`/`finally`, so when `run()` raises, the
exception propagates before the flush loop is reached. Concretely, with
one registered sink whose flush count is 0 and a `run()` that raises
`"boom"`, `__exit__` propagates the exception and the sink's flush count
stays 0 (it is not flushed once, as the claim would require). -/
theorem C1_counterexample :
    exitRunner (Except.error "boom") [0] = (Except.error "boom", [0]) ∧
    exitRunner (Except.error "boom") [0] ≠ (Except.error "boom", [1]) := by
  decide

/-- C1 (amended). For every runner used as a scoped context with any
registered sinks, on scope exit `run()` is invoked and then, when `run()`
completes normally, every registered sink's `flush()` is invoked exactly
once; if `run()` itself throws, the exception propagates out of the scope
exit and no sink's `flush` is invoked. -/
theorem C1_exit_flushes (flushCounts : List Nat) :
    exitRunner (Except.ok ()) flushCounts =
      (Except.ok (), flushCounts.map (fun n => n + 1)) ∧
    ∀ e, exitRunner (Except.error e) flushCounts = (Except.error e, flushCounts) :=
  ⟨rfl, fun _ => rfl⟩

/-- C2. For every registered diagnostic method whose call completes
without raising, the completion callback dispatches the tuple
`(qualifiedName, description, True, "n/a")` to every registered sink,
with sinks visited in registration order. -/
theorem C2_callback_pass (m : MethodRec) (sinkIds : List Nat) :
    callback CallOutcome.ok m sinkIds =
      Except.ok (sinkIds.map (fun i =>
        { sink := i, name := m.name, doc := m.doc, result := true,
          reason := "n/a" })) :=
  rfl

/-- C3. For every registered diagnostic method whose call raises an
`AssertionError` with message `msg`, the completion callback dispatches
the tuple `(qualifiedName, description, False, msg)` to every registered
sink, in registration order. -/
theorem C3_callback_assertion (msg : String) (m : MethodRec) (sinkIds : List Nat) :
    callback (CallOutcome.assertionError msg) m sinkIds =
      Except.ok (sinkIds.map (fun i =>
        { sink := i, name := m.name, doc := m.doc, result := false,
          reason := msg })) :=
  rfl

/-- C4. For every diagnostic method that raises an exception that is not
an assertion failure, the completion callback classifies it neither as
PASS nor as FAIL: the exception escapes the callback and no result is
dispatched to any sink (the result is `Except.error e`, carrying no
submit events). -/
theorem C4_callback_other_error (e : String) (m : MethodRec) (sinkIds : List Nat) :
    callback (CallOutcome.otherError e) m sinkIds = Except.error e :=
  rfl

/-- C5. For every method and every substitution mapping, the description
renderer never raises (it is a total function into `Option String`): if
the docstring is absent it returns `none`, and if substitution fails
(undefined key or otherwise invalid formatting) it also returns `none`. -/
theorem C5_render_never_raises (kwargs : List (String × String)) :
    render_doc_string none kwargs = none ∧
    ∀ d, (∃ e, pyFormat d kwargs = Except.error e) →
      render_doc_string (some d) kwargs = none := by
  refine ⟨rfl, ?_⟩
  intro d hd
  obtain ⟨e, he⟩ := hd
  simp [render_doc_string, he]

/-- Witness for C5: a docstring referencing the undefined key `missing`
with an empty substitution mapping fails to format and renders to `none`. -/
theorem C5_witness :
    render_doc_string (some "a \x7bmissing\x7d b") [] = none :=
  (C5_render_never_raises []).2 "a \x7bmissing\x7d b"
    ⟨"KeyError: missing", by decide⟩

/-- C6. Description rendering is idempotent (the renderer is a pure
function, so rendering the same docstring with the same substitution
mapping twice yields identical output), and every successful rendering
has all whitespace runs collapsed: the result contains no two adjacent
whitespace characters. -/
theorem C6_render_collapsed (doc : Option String) (kwargs : List (String × String)) :
    render_doc_string doc kwargs = render_doc_string doc kwargs ∧
    ∀ s, render_doc_string doc kwargs = some s → noAdjWS s.data = true := by
  refine ⟨rfl, ?_⟩
  intro s hs
  cases doc with
  | none => simp [render_doc_string] at hs
  | some d =>
      cases hfmt : pyFormat d kwargs with
      | error e => simp [render_doc_string, hfmt] at hs
      | ok t =>
          simp only [render_doc_string, hfmt, Option.some.injEq] at hs
          rw [← hs]
          exact noAdjWS_collapseWS t

/-- Witness for C6: the docstring `"a" ⟨tab⟩ ⟨space⟩ "b"` renders to
`"a b"`, which contains no two adjacent whitespace characters. -/
theorem C6_witness : noAdjWS ("a b".data) = true :=
  (C6_render_collapsed (some "a\t b") []).2 "a b" (by decide)

/-- Discovery yields nothing exactly when no member passes the
`test_`-and-callable check, i.e. exactly when `__is_diag_instance`'s scan
fails. -/
theorem extract_test_methods_aux_eq_nil (r c i : String)
    (fields : List (String × String)) (ms : List (String × Member)) :
    extract_test_methods_aux r c i fields ms = [] ↔
      ms.any (fun nm => startsWithTest nm.1 && isCallable nm.2) = false := by
  induction ms with
  | nil => simp [extract_test_methods_aux]
  | cons nm rest ih =>
      by_cases h : (startsWithTest nm.1 && isCallable nm.2) = true
      · cases nm with
        | mk name m => simp [extract_test_methods_aux, h, List.any_cons] at *
      · cases nm with
        | mk name m =>
            simp only [Bool.not_eq_true] at h
            simp [extract_test_methods_aux, h, List.any_cons, ih]

/-- Discovery on an object finds at least one test method exactly when
`__is_diag_instance` accepts the object. -/
theorem extract_test_methods_eq_nil (r : String) (obj : PyObject) :
    extract_test_methods r obj = [] ↔ is_diag_instance obj = false := by
  unfold extract_test_methods is_diag_instance
  exact extract_test_methods_aux_eq_nil r obj.className
    ((lookupStr obj.fields "_name").getD "") obj.fields obj.members

/-- C7. `register(name, obj)` classifies `obj` exactly one way. After
setting `obj._name = name`: if `obj` is an `Output` instance it is
appended to `outputs` and `methods` is unchanged; otherwise, if discovery
finds at least one diagnostic method, all discovered methods are appended
to `methods` and `outputs` is unchanged; if neither holds, both lists are
unchanged. -/
theorem C7_register_classifies (runnerName : String) (st : RegistryState)
    (name : String) (obj : PyObject) :
    (obj.isOutput = true →
      register runnerName st name obj =
        { methods := st.methods, outputs := st.outputs ++ [setName obj name] }) ∧
    (obj.isOutput = false →
      extract_test_methods runnerName (setName obj name) ≠ [] →
      register runnerName st name obj =
        { methods := st.methods ++ extract_test_methods runnerName (setName obj name),
          outputs := st.outputs }) ∧
    (obj.isOutput = false →
      extract_test_methods runnerName (setName obj name) = [] →
      register runnerName st name obj = st) := by
  have hout : (setName obj name).isOutput = obj.isOutput := rfl
  refine ⟨?_, ?_, ?_⟩
  · intro h
    simp only [register, hout, h, if_pos]
  · intro h hne
    have hd : is_diag_instance (setName obj name) = true := by
      cases hdiag : is_diag_instance (setName obj name) with
      | false => exact absurd ((extract_test_methods_eq_nil runnerName _).2 hdiag) hne
      | true => rfl
    simp only [register, hout, h, Bool.false_eq_true, if_false, hd, if_pos]
  · intro h he
    have hd : is_diag_instance (setName obj name) = false :=
      (extract_test_methods_eq_nil runnerName _).1 he
    simp [register, hout, h, hd]

/-- Witness for C7: an output object is appended to `outputs`, a test
collection has its discovered method appended to `methods`, and an object
that is neither leaves the registry unchanged. -/
theorem C7_witness :
    register "r" ⟨[], []⟩ "o" ⟨true, "T", [], []⟩ =
      ⟨[], [⟨true, "T", [], [("_name", "o")]⟩]⟩ ∧
    register "r" ⟨[], []⟩ "c" ⟨false, "C", [("test_a", Member.callableMember 0 none)], []⟩ =
      ⟨[⟨"r::C(c)::test_a", 0, none⟩], []⟩ ∧
    register "r" ⟨[], []⟩ "p" ⟨false, "P", [("x", Member.attr)], []⟩ = ⟨[], []⟩ := by
  refine ⟨?_, ?_, ?_⟩
  · have h := (C7_register_classifies "r" ⟨[], []⟩ "o" ⟨true, "T", [], []⟩).1 rfl
    rw [h]; decide
  · have h := (C7_register_classifies "r" ⟨[], []⟩ "c"
      ⟨false, "C", [("test_a", Member.callableMember 0 none)], []⟩).2.1 rfl (by decide)
    rw [h]; decide
  · exact (C7_register_classifies "r" ⟨[], []⟩ "p"
      ⟨false, "P", [("x", Member.attr)], []⟩).2.2 rfl (by decide)

/-- C8. The claim states that discovery enumerates exactly the members
whose name begins with `test_` and which are invocable with zero
arguments. This is false for the code: `__extract_test_methods` checks
only `callable(func)`, never the arity. Concretely, an object whose sole
`test_` member is a callable requiring one argument (hence not invocable
with zero arguments) is still enumerated, with its qualified name and
rendered description. -/
theorem C8_counterexample :
    extract_test_methods "r"
      ⟨false, "C", [("test_a", Member.callableMember 1 none)], [("_name", "i")]⟩ =
      [⟨"r::C(i)::test_a", 1, none⟩] := by
  decide

/-- C8 (amended). For every registered test-collection object, discovery
enumerates exactly those members whose name begins with the fixed prefix
`test_` and which are callable (regardless of arity), and for each such
member produces the qualified name
`<runnerName>::<collectionTypeName>(<instanceName>)::<methodName>`
together with a rendered description. -/
theorem C8_extract_enumerates (runnerName : String) (obj : PyObject) :
    extract_test_methods runnerName obj =
      (obj.members.filter (fun nm => startsWithTest nm.1 && isCallable nm.2)).map
        (fun nm =>
          { name := qualify runnerName obj.className
              ((lookupStr obj.fields "_name").getD "") nm.1
            arity := memberArity nm.2
            doc := render_doc_string (memberDoc nm.2) obj.fields }) := by
  unfold extract_test_methods
  induction obj.members with
  | nil => rfl
  | cons nm rest ih =>
      obtain ⟨name, m⟩ := nm
      by_cases h : (startsWithTest name && isCallable m) = true
      · simp [extract_test_methods_aux, List.filter_cons, h, ih]
      · simp [extract_test_methods_aux, List.filter_cons, h, ih]

/-- C9. The command executor converts all failure conditions into a
`(False, reason)` return value and never raises (it is a total function):
on exit-code mismatch with expected code 0 and actual code 1 it returns
`(False, "Exit code is '1' instead of the expected '0'.")`; on timeout
with `timeout = 1` it returns `(False, "Test timed out after '1'
seconds.")`; and when every requested check passes it returns
`(True, "Good")`. -/
theorem C9_exec_cli_reports (research : String → String → Bool) :
    (∀ (out err : String) (sp ep : Option String) (t : Nat),
      exec_cli research (SubprocessOutcome.completed 1 out err) (some 0) sp ep t =
        (false, "Exit code is \x271\x27 instead of the expected \x270\x27.")) ∧
    (∀ (ec : Option Int) (sp ep : Option String),
      exec_cli research SubprocessOutcome.timedOut ec sp ep 1 =
        (false, "Test timed out after \x271\x27 seconds.")) ∧
    (∀ (rc : Int) (out err : String) (ec : Option Int) (sp ep : Option String)
        (t : Nat),
      (ec = none ∨ ec = some rc) →
      (∀ p, sp = some p → research p out = true) →
      (∀ p, ep = some p → research p err = true) →
      exec_cli research (SubprocessOutcome.completed rc out err) ec sp ep t =
        (true, "Good")) := by
  refine ⟨?_, ?_, ?_⟩
  · intro out err sp ep t
    rfl
  · intro ec sp ep
    rfl
  · intro rc out err ec sp ep t hec hsp hep
    have hstderr : exec_cli_checkStderr research err sp ep = (true, "Good") := by
      cases ep with
      | none => rfl
      | some p => simp [exec_cli_checkStderr, hep p rfl]
    have hstdout : exec_cli_checkStdout research out err sp ep = (true, "Good") := by
      cases sp with
      | none => simpa [exec_cli_checkStdout] using hstderr
      | some p =>
          simp only [exec_cli_checkStdout, hsp p rfl, if_true]
          exact hstderr
    cases hec with
    | inl h =>
        subst h
        simpa [exec_cli] using hstdout
    | inr h =>
        subst h
        simpa [exec_cli] using hstdout

/-- Witness for C9: with a regex engine that always matches, running a
command that exits 0 with the expected exit code and a matching stdout
pattern yields `(True, "Good")`. -/
theorem C9_witness :
    exec_cli (fun _ _ => true) (SubprocessOutcome.completed 0 "hello" "")
      (some 0) (some "ell") none 60 = (true, "Good") :=
  (C9_exec_cli_reports (fun _ _ => true)).2.2 0 "hello" "" (some 0) (some "ell")
    none 60 (Or.inr rfl) (fun _ _ => rfl) (fun _ hp => nomatch hp)

/-- C10. When a `stderr_pattern` is given and does not match the captured
stderr (after the exit-code and stdout checks pass), the returned reason
embeds the `stdout_pattern` argument rather than the `stderr_pattern`
argument: the result is
`(False, "STDERR did not match regex '<stdout_pattern>'.")`. -/
theorem C10_stderr_reason_uses_stdout_pattern
    (research : String → String → Bool) (rc : Int) (out err : String)
    (ec : Option Int) (sp : Option String) (pe : String) (t : Nat)
    (hec : ec = none ∨ ec = some rc)
    (hsp : ∀ p, sp = some p → research p out = true)
    (hep : research pe err = false) :
    exec_cli research (SubprocessOutcome.completed rc out err) ec sp (some pe) t =
      (false, "STDERR did not match regex \x27" ++ pyStrOpt sp ++ "\x27.") := by
  have hstderr : exec_cli_checkStderr research err sp (some pe) =
      (false, "STDERR did not match regex \x27" ++ pyStrOpt sp ++ "\x27.") := by
    simp [exec_cli_checkStderr, hep]
  have hstdout : exec_cli_checkStdout research out err sp (some pe) =
      (false, "STDERR did not match regex \x27" ++ pyStrOpt sp ++ "\x27.") := by
    cases sp with
    | none => simpa [exec_cli_checkStdout] using hstderr
    | some p =>
        simp only [exec_cli_checkStdout, hsp p rfl, if_true]
        exact hstderr
  cases hec with
  | inl h =>
      subst h
      simpa [exec_cli] using hstdout
  | inr h =>
      subst h
      simpa [exec_cli] using hstdout

/-- Witness for C10: with no `stdout_pattern` and a `stderr_pattern` that
fails to match, the reported reason embeds the Python rendering of the
absent `stdout_pattern`, i.e. the text `None`. -/
theorem C10_witness :
    exec_cli (fun _ _ => false) (SubprocessOutcome.completed 0 "" "boom")
      none none (some "bad") 60 =
      (false, "STDERR did not match regex \x27None\x27.") :=
  C10_stderr_reason_uses_stdout_pattern (fun _ _ => false) 0 "" "boom" none none
    "bad" 60 (Or.inl rfl) (fun _ hp => nomatch hp) rfl
